import Mathlib

/- Shallow embedding of src/story_processor.py: a resumable audio
transcription and analysis pipeline.  File-system state (audio cache,
transcript files, catalog cache file, output rows) is passed explicitly;
the external collaborators (HTTP client, audio codec, transcription and
analysis engines, result writer) are oracle functions bundled in Env.
All machine effects that the spec talks about (network calls, engine
invocations, appends, log lines) are recorded in an explicit event
trace. -/

set_option autoImplicit false

/- ------------------------------------------------------------------ -/
/- Python value and string primitives used by the script.             -/
/- ------------------------------------------------------------------ -/

/-- A JSON-ish Python value as it can appear in a story field. -/
inductive PyVal where
  | str (s : String)
  | int (n : Int)
  | bool (b : Bool)
deriving DecidableEq

/-- Python str() applied to the result of story.get(k): None prints as
"None", strings print as themselves, numbers and booleans as usual. -/
def pyStr : Option PyVal → String
  | Option.none => "None"
  | some (PyVal.str s) => s
  | some (PyVal.int n) => toString n
  | some (PyVal.bool true) => "True"
  | some (PyVal.bool false) => "False"

/-- Python s.strip(): drop whitespace from both ends. -/
def pyStrip (s : String) : String :=
  String.mk (((s.toList.dropWhile Char.isWhitespace).reverse.dropWhile
      Char.isWhitespace).reverse)

/-- Python s.split(sep) for a one-character separator, on char lists. -/
def splitOnChar (c : Char) : List Char → List (List Char)
  | [] => [[]]
  | a :: rest =>
    match splitOnChar c rest with
    | [] => if a = c then [[], []] else [[a]]
    | h :: t => if a = c then [] :: h :: t else (a :: h) :: t

/-- Python truthiness of an optional string field: present and nonempty. -/
def truthyStr : Option PyVal → Bool
  | some (PyVal.str s) => !(s == "")
  | some (PyVal.int n) => !(n == 0)
  | some (PyVal.bool b) => b
  | Option.none => false

/-- Python `a or b` over optional field values, keeping the first truthy
one. -/
def pyOr (a b : Option PyVal) : Option PyVal :=
  if truthyStr a then a else b

/- ------------------------------------------------------------------ -/
/- StoryProcessorConfig constants from the script.                    -/
/- ------------------------------------------------------------------ -/

def api_url : String := "https://idsp-dev.teacher-network.in/backend/stories/en/"

def base_audio_url : String := "https://idsp-dev.teacher-network.in/"

def trim_seconds : Nat := 20

/- ------------------------------------------------------------------ -/
/- sanitize_filename (line 52): replace illegal filename chars by "_",
   collapse each whitespace run to one "_", strip "_" at both ends,
   truncate to 150 characters.                                        -/
/- ------------------------------------------------------------------ -/

/-- The character class of the first re.sub in sanitize_filename. -/
def illegalChar (c : Char) : Bool :=
  c = '\\' || c = '/' || c = '*' || c = '?' || c = ':' || c = '"' ||
  c = '<' || c = '>' || c = '|'

/-- re.sub of a whitespace run by a single underscore. -/
def collapseWs : List Char → List Char
  | [] => []
  | [c] => if c.isWhitespace then ['_'] else [c]
  | a :: b :: rest =>
    if a.isWhitespace then
      if b.isWhitespace then collapseWs (b :: rest)
      else '_' :: collapseWs (b :: rest)
    else a :: collapseWs (b :: rest)

/-- Python s.strip(underscore). -/
def stripUnderscores (cs : List Char) : List Char :=
  ((cs.dropWhile (· = '_')).reverse.dropWhile (· = '_')).reverse

/-- StoryProcessor.sanitize_filename. -/
def sanitize_filename (name : String) : String :=
  String.mk ((stripUnderscores (collapseWs
      (name.toList.map (fun c => if illegalChar c then '_' else c)))).take 150)

/- ------------------------------------------------------------------ -/
/- Extension derivation (process_story lines 120-124).                -/
/- ------------------------------------------------------------------ -/

/-- url.split(questionmark)[0].split(dot)[-1]: the raw extension before
the length guard. -/
def raw_ext (url : String) : String :=
  String.mk ((splitOnChar '.' ((splitOnChar '?' url.toList).headD [])).getLastD [])

/-- The extension actually used: the raw one, or "mp3" when the raw one
is longer than 5 characters. -/
def derive_ext (url : String) : String :=
  if (raw_ext url).length > 5 then "mp3" else raw_ext url

/-- The cache filename built at line 124. -/
def make_filename (title url : String) : String :=
  sanitize_filename title ++ "." ++ derive_ext url

/- ------------------------------------------------------------------ -/
/- pathlib stem / suffix, used by trim_audio for the trimmed path.    -/
/- ------------------------------------------------------------------ -/

/-- Index of the last occurrence of a character in a char list. -/
def lastIdxOf (c : Char) : List Char → Option Nat
  | [] => Option.none
  | a :: rest =>
    match lastIdxOf c rest with
    | some i => some (i + 1)
    | Option.none => if a = c then some 0 else Option.none

/-- pathlib suffix of a file name: from the last dot on, provided the dot
is neither the first nor the last character. -/
def pathSuffix (p : String) : String :=
  match lastIdxOf '.' p.toList with
  | some i =>
    if 0 < i && i + 1 < p.toList.length then String.mk (p.toList.drop i) else ""
  | Option.none => ""

/-- pathlib stem of a file name: everything before the suffix. -/
def pathStem (p : String) : String :=
  String.mk (p.toList.take (p.toList.length - (pathSuffix p).toList.length))

/-- The trimmed-artifact path of line 80: stem + "_trimmed" + suffix. -/
def trimmedPath (p : String) : String :=
  pathStem p ++ "_trimmed" ++ pathSuffix p

/- ------------------------------------------------------------------ -/
/- Stories, analysis results and output rows.                         -/
/- ------------------------------------------------------------------ -/

/-- One story object of the remote catalog, restricted to the fields the
script reads. -/
structure Story where
  nid : Option PyVal
  title : Option PyVal
  story_title : Option PyVal
  audio_story_url : Option PyVal
  audio : Option PyVal
  audio_url : Option PyVal
  duration : Option PyVal
  field_is_it_by_community : Option PyVal
deriving DecidableEq

/-- The community check of run (line 161): str(...).strip() == "1". -/
def is_community (v : Option PyVal) : Bool :=
  pyStrip (pyStr v) == "1"

/-- Line 108: story.get title, else story_title, else an Untitled
fallback mentioning the nid. -/
def storyTitle (st : Story) : String :=
  let t := pyOr st.title st.story_title
  if truthyStr t then pyStr t else "(Untitled " ++ pyStr st.nid ++ ")"

/-- Lines 110-111: the first truthy value among the possible audio keys. -/
def firstTruthy : List (Option PyVal) → Option PyVal
  | [] => Option.none
  | o :: rest => if truthyStr o then o else firstTruthy rest

def relativeAudio (st : Story) : Option PyVal :=
  firstTruthy [st.audio_story_url, st.audio, st.audio_url]

/-- Python s.lstrip(slash). -/
def lstripSlash (s : String) : String :=
  String.mk (s.toList.dropWhile (· = '/'))

/-- Line 117: the resolved download URL. -/
def storyUrl (rel : String) : String :=
  base_audio_url ++ lstripSlash rel

/-- The structured value returned by the external analyze engine. -/
structure AnalysisResult where
  word_count : Option Int
  sentence_count : Option Int
  avg_words_per_sentence : Option Int
  nouns : Int
  verbs : Int
  adjectives : Int
  word_length_distribution : List (Nat × Int)
deriving DecidableEq

/-- dict.get(k, 0) on the word-length distribution. -/
def distGet (d : List (Nat × Int)) (k : Nat) : Int :=
  (d.lookup k).getD 0

/-- One output row of stories_analysis.csv (lines 136-149). -/
structure Row where
  title : String
  nid : Option PyVal
  duration : Option PyVal
  word_count : Option Int
  sentence_count : Option Int
  avg_words_per_sentence : Option Int
  noun_count : Int
  verb_count : Int
  adj_count : Int
  letter_words : List Int
deriving DecidableEq

/-- Row assembly of lines 136-149; letter_words holds the buckets for
word lengths 3 through 10. -/
def mkRow (st : Story) (title : String) (a : AnalysisResult) : Row :=
  { title := title
    nid := st.nid
    duration := st.duration
    word_count := a.word_count
    sentence_count := a.sentence_count
    avg_words_per_sentence := a.avg_words_per_sentence
    noun_count := a.nouns
    verb_count := a.verbs
    adj_count := a.adjectives
    letter_words := (List.range 8).map
      (fun i => distGet a.word_length_distribution (i + 3)) }

/- ------------------------------------------------------------------ -/
/- Machine state, events, external oracles.                           -/
/- ------------------------------------------------------------------ -/

/-- Observable events of a run. -/
inductive Ev where
  | netGet (url : String)
  | transcribeCall (path : String)
  | analyzeCall (text : String)
  | append (r : Row)
  | warnNoAudio (nid : String)
  | skipCommunity (nid : String)
  | failStory (nid : String)
  | processedOk (title : String)
deriving DecidableEq

/-- Durable state: audio files in audio_dir keyed by file name, transcript
files keyed by file name, the catalog cache file, and the rows of the
output csv. -/
structure FS where
  audioFiles : List (String × List Nat)
  transcripts : List (String × String)
  cacheFile : Option (List Story)
  outputRows : List Row
deriving DecidableEq

/-- A streamed download either completes with the full content, fails its
status check, or is interrupted after some chunks were written. -/
inductive DlOutcome where
  | success (content : List Nat)
  | httpErr
  | interrupted (sent : List Nat)
deriving DecidableEq

/-- The external collaborators: network, audio codec, transcription and
analysis engines, and whether the csv writer accepts the row. -/
structure Env where
  net : String → DlOutcome
  catalog : Except Unit (List Story)
  decode : List Nat → Except Unit (List Nat)
  encode : List Nat → List Nat
  transcribe : String → Except Unit String
  analyze : String → Except Unit AnalysisResult
  writeOk : Bool

/- ------------------------------------------------------------------ -/
/- StoryProcessor.download_audio (lines 57-77).                       -/
/- ------------------------------------------------------------------ -/

/-- download_audio: existence check on the final path first; otherwise
GET the url, raise on a bad status before the file is opened, then
stream chunks directly into the final path (an interruption leaves the
chunks written so far at that path). -/
def download_audio (env : Env) (files : List (String × List Nat))
    (url fn : String) :
    List (String × List Nat) × List Ev × Except Unit String :=
  if (files.lookup fn).isSome then
    (files, [], Except.ok fn)
  else
    match env.net url with
    | DlOutcome.success c => ((fn, c) :: files, [Ev.netGet url], Except.ok fn)
    | DlOutcome.httpErr => (files, [Ev.netGet url], Except.error ())
    | DlOutcome.interrupted sent =>
        ((fn, sent) :: files, [Ev.netGet url], Except.error ())

/- ------------------------------------------------------------------ -/
/- StoryProcessor.trim_audio (lines 79-89).                           -/
/- ------------------------------------------------------------------ -/

/-- The slice of lines 86-87: audio[start_ms:] when strictly longer than
seconds*1000 milliseconds, the whole audio otherwise.  The audio is a
list with one entry per millisecond. -/
def trim_core (audio : List Nat) (seconds : Nat) : List Nat :=
  if audio.length > seconds * 1000 then audio.drop (seconds * 1000) else audio

/-- trim_audio: existence check on the trimmed path first; otherwise
decode the source file, slice it, and export to the trimmed path. -/
def trim_audio (env : Env) (files : List (String × List Nat))
    (p : String) (seconds : Nat) :
    List (String × List Nat) × Except Unit String :=
  if (files.lookup (trimmedPath p)).isSome then
    (files, Except.ok (trimmedPath p))
  else
    match files.lookup p with
    | Option.none => (files, Except.error ())
    | some content =>
      match env.decode content with
      | Except.error _ => (files, Except.error ())
      | Except.ok audio =>
          ((trimmedPath p, env.encode (trim_core audio seconds)) :: files,
           Except.ok (trimmedPath p))

/- ------------------------------------------------------------------ -/
/- StoryProcessor.fetch_stories (lines 91-103).                       -/
/- ------------------------------------------------------------------ -/

/-- fetch_stories: parse and return the cache file when it exists, with
no network call; otherwise GET the catalog, write it to the cache file
and return it (a failed GET writes nothing). -/
def fetch_stories (env : Env) (cache : Option (List Story)) :
    Option (List Story) × List Ev × Except Unit (List Story) :=
  match cache with
  | some data => (some data, [], Except.ok data)
  | Option.none =>
    match env.catalog with
    | Except.error _ => (Option.none, [Ev.netGet api_url], Except.error ())
    | Except.ok data => (some data, [Ev.netGet api_url], Except.ok data)

/- ------------------------------------------------------------------ -/
/- StoryProcessor.process_story (lines 105-155).                      -/
/- ------------------------------------------------------------------ -/

/-- process_story: everything runs inside a try block; any stage failure
is logged with the story's nid and swallowed.  A story with no truthy
audio field only logs a warning and returns.  The transcript file is
written unconditionally right after transcription; the row is appended
only when every stage succeeded. -/
def process_story (env : Env) (fs : FS) (st : Story) : FS × List Ev :=
  match relativeAudio st with
  | Option.none => (fs, [Ev.warnNoAudio (pyStr st.nid)])
  | some (PyVal.int _) => (fs, [Ev.failStory (pyStr st.nid)])
  | some (PyVal.bool _) => (fs, [Ev.failStory (pyStr st.nid)])
  | some (PyVal.str rel) =>
    let title := storyTitle st
    let url := storyUrl rel
    let fn := make_filename title url
    match download_audio env fs.audioFiles url fn with
    | (af, evs, Except.error _) =>
        ({ fs with audioFiles := af }, evs ++ [Ev.failStory (pyStr st.nid)])
    | (af, evs, Except.ok apath) =>
      match trim_audio env af apath trim_seconds with
      | (af2, Except.error _) =>
          ({ fs with audioFiles := af2 }, evs ++ [Ev.failStory (pyStr st.nid)])
      | (af2, Except.ok tpath) =>
        match env.transcribe tpath with
        | Except.error _ =>
            ({ fs with audioFiles := af2 },
             evs ++ [Ev.transcribeCall tpath, Ev.failStory (pyStr st.nid)])
        | Except.ok text =>
          let ts := (pyStr st.nid ++ ".txt", text) :: fs.transcripts
          match env.analyze text with
          | Except.error _ =>
              ({ fs with audioFiles := af2, transcripts := ts },
               evs ++ [Ev.transcribeCall tpath, Ev.analyzeCall text,
                       Ev.failStory (pyStr st.nid)])
          | Except.ok a =>
            let row := mkRow st title a
            if env.writeOk then
              ({ fs with
                  audioFiles := af2
                  transcripts := ts
                  outputRows := fs.outputRows ++ [row] },
               evs ++ [Ev.transcribeCall tpath, Ev.analyzeCall text,
                       Ev.append row, Ev.processedOk title])
            else
              ({ fs with audioFiles := af2, transcripts := ts },
               evs ++ [Ev.transcribeCall tpath, Ev.analyzeCall text,
                       Ev.failStory (pyStr st.nid)])

/- ------------------------------------------------------------------ -/
/- StoryProcessor.run (lines 158-167).                                -/
/- ------------------------------------------------------------------ -/

/-- The loop of run: skip community-flagged stories with a log line,
hand every other story to process_story, and keep going regardless of
the outcome. -/
def runStories (env : Env) : FS → List Story → FS × List Ev
  | fs, [] => (fs, [])
  | fs, st :: rest =>
    if is_community st.field_is_it_by_community then
      ((runStories env fs rest).1,
       Ev.skipCommunity (pyStr st.nid) :: (runStories env fs rest).2)
    else
      ((runStories env (process_story env fs st).1 rest).1,
       (process_story env fs st).2 ++
         (runStories env (process_story env fs st).1 rest).2)

/-- run: fetch_stories is outside any try block, so its failure aborts
the whole run; after that every story goes through the loop. -/
def run (env : Env) (fs : FS) : FS × List Ev × Except Unit Unit :=
  match fetch_stories env fs.cacheFile with
  | (_, evs, Except.error _) => (fs, evs, Except.error ())
  | (c, evs, Except.ok stories) =>
    let r := runStories env { fs with cacheFile := c } stories
    (r.1, evs ++ r.2, Except.ok ())

/- ------------------------------------------------------------------ -/
/- A concrete scenario: one well-formed story, an environment in which
   every stage succeeds, and an initially empty machine.              -/
/- ------------------------------------------------------------------ -/

def story0 : Story :=
  { nid := some (PyVal.int 1)
    title := some (PyVal.str "Sun")
    story_title := Option.none
    audio_story_url := some (PyVal.str "/a.mp3")
    audio := Option.none
    audio_url := Option.none
    duration := some (PyVal.int 30)
    field_is_it_by_community := some (PyVal.str "0") }

def analysis0 : AnalysisResult :=
  { word_count := some 5
    sentence_count := some 1
    avg_words_per_sentence := some 5
    nouns := 2
    verbs := 1
    adjectives := 0
    word_length_distribution := [(3, 2)] }

def env0 : Env :=
  { net := fun _ => DlOutcome.success [1, 2]
    catalog := Except.ok [story0]
    decode := fun c => Except.ok c
    encode := fun a => a
    transcribe := fun _ => Except.ok "hello world"
    analyze := fun _ => Except.ok analysis0
    writeOk := true }

def fs0 : FS :=
  { audioFiles := [], transcripts := [], cacheFile := Option.none,
    outputRows := [] }

/-- The row that story0 produces under env0. -/
def row0 : Row := mkRow story0 "Sun" analysis0

/-- The machine state after one full successful run on story0. -/
def fs1 : FS := (run env0 fs0).1

/-- An environment whose downloads fail their HTTP status check. -/
def envErr : Env := { env0 with net := fun _ => DlOutcome.httpErr }

/-- An environment whose downloads are interrupted after one chunk. -/
def envInt : Env := { env0 with net := fun _ => DlOutcome.interrupted [7] }

/-- A story whose audio fields are absent or empty. -/
def storyNoAudio : Story :=
  { story0 with
      nid := some (PyVal.int 2)
      audio_story_url := Option.none
      audio := some (PyVal.str "")
      audio_url := Option.none }

/-- A warm-cache state in which a transcript record for story0 already
exists with different text. -/
def fsT : FS := { fs1 with transcripts := [("1.txt", "OLD")] }

/-- story0 with its community flag set to "1" surrounded by whitespace. -/
def storyWs : Story :=
  { story0 with field_is_it_by_community := some (PyVal.str " 1 ") }

/-- env0 with storyWs as the only catalog entry. -/
def envWs : Env := { env0 with catalog := Except.ok [storyWs] }

/- ------------------------------------------------------------------ -/
/- Theorems.                                                          -/
/- ------------------------------------------------------------------ -/

/-- C6: when a file already exists at the derived target path,
download_audio returns that path immediately, with no network event and
no state change; only when no file exists there is the GET issued. -/
theorem c6_acquirer_cache_hit (env : Env) (files : List (String × List Nat))
    (url fn : String) :
    ((files.lookup fn).isSome = true →
      download_audio env files url fn = (files, [], Except.ok fn)) ∧
    (files.lookup fn = Option.none →
      (download_audio env files url fn).2.1 = [Ev.netGet url]) := by
  constructor
  · intro h
    simp [download_audio, h]
  · intro h
    simp only [download_audio, h, Option.isSome_none, Bool.false_eq_true, if_false]
    cases hn : env.net url <;> simp [hn]

/-- C6 witness: a concrete cache hit returns with no events, and a
concrete cache miss issues the GET. -/
theorem c6_acquirer_cache_hit_w :
    download_audio env0 [("f.mp3", [9])] "u" "f.mp3"
      = ([("f.mp3", [9])], [], Except.ok "f.mp3") ∧
    (download_audio env0 [] "u" "f.mp3").2.1 = [Ev.netGet "u"] :=
  ⟨(c6_acquirer_cache_hit env0 [("f.mp3", [9])] "u" "f.mp3").1 rfl,
   (c6_acquirer_cache_hit env0 [] "u" "f.mp3").2 rfl⟩

/-- C7: when the catalog cache file exists, fetch_stories returns its
parsed contents with no network event; only when it is absent is the
GET issued, and on success the response is written to the cache file
and the parsed items returned. -/
theorem c7_catalog_cache (env : Env) (cache : Option (List Story))
    (d : List Story) :
    (cache = some d → fetch_stories env cache = (some d, [], Except.ok d)) ∧
    (cache = Option.none → env.catalog = Except.ok d →
      fetch_stories env cache = (some d, [Ev.netGet api_url], Except.ok d)) ∧
    (cache = Option.none →
      (fetch_stories env cache).2.1 = [Ev.netGet api_url]) := by
  refine ⟨fun h => by simp [fetch_stories, h],
          fun h hc => by simp [fetch_stories, h, hc],
          fun h => ?_⟩
  simp only [fetch_stories, h]
  cases hc : env.catalog <;> simp [hc]

/-- C7 witness: a concrete cache hit and a concrete first fetch. -/
theorem c7_catalog_cache_w :
    fetch_stories env0 (some [story0]) = (some [story0], [], Except.ok [story0]) ∧
    fetch_stories env0 Option.none
      = (some [story0], [Ev.netGet api_url], Except.ok [story0]) :=
  ⟨(c7_catalog_cache env0 (some [story0]) [story0]).1 rfl,
   (c7_catalog_cache env0 Option.none [story0]).2.1 rfl rfl⟩

/-- C8: on a trim-cache miss with a decodable source, trim_audio stores
the encoded slice at the trimmed path; the slice is the whole audio when
its duration is at most seconds*1000 milliseconds (explicit no-op), and
only a strictly longer audio loses exactly its leading seconds*1000
milliseconds, leaving a nonempty remainder. -/
theorem c8_noop_trim (env : Env) (files : List (String × List Nat))
    (p : String) (s : Nat) (c audio : List Nat)
    (hmiss : files.lookup (trimmedPath p) = Option.none)
    (hsrc : files.lookup p = some c)
    (hdec : env.decode c = Except.ok audio) :
    trim_audio env files p s =
      ((trimmedPath p, env.encode (trim_core audio s)) :: files,
       Except.ok (trimmedPath p)) ∧
    (audio.length ≤ s * 1000 → trim_core audio s = audio) ∧
    (s * 1000 < audio.length →
      trim_core audio s = audio.drop (s * 1000) ∧
      (trim_core audio s).length = audio.length - s * 1000 ∧
      0 < (trim_core audio s).length) := by
  refine ⟨by simp [trim_audio, hmiss, hsrc, hdec], fun h => ?_, fun h => ?_⟩
  · unfold trim_core
    rw [if_neg (by omega)]
  · unfold trim_core
    rw [if_pos (by omega)]
    refine ⟨rfl, by rw [List.length_drop], by rw [List.length_drop]; omega⟩

/-- C8 witness: a 5 ms audio trimmed by 20 seconds is stored whole. -/
theorem c8_noop_trim_w :
    trim_audio env0 [("a.mp3", [5])] "a.mp3" 20
      = (("a_trimmed.mp3", [5]) :: [("a.mp3", [5])], Except.ok "a_trimmed.mp3") ∧
    trim_core [5] 20 = [5] :=
  ⟨(c8_noop_trim env0 [("a.mp3", [5])] "a.mp3" 20 [5] [5] rfl rfl rfl).1,
   (c8_noop_trim env0 [("a.mp3", [5])] "a.mp3" 20 [5] [5] rfl rfl rfl).2.1
     (by decide)⟩

/-- C10: the extension is the text after the last dot of the URL with
its query text removed; it is kept when at most 5 characters long and
replaced by "mp3" otherwise, so the cache filename is always the
sanitized title, a dot, and an extension of at most 5 characters. -/
theorem c10_extension_fallback (title url : String) :
    ((raw_ext url).length ≤ 5 → derive_ext url = raw_ext url) ∧
    (5 < (raw_ext url).length → derive_ext url = "mp3") ∧
    (derive_ext url).length ≤ 5 ∧
    make_filename title url = sanitize_filename title ++ "." ++ derive_ext url := by
  refine ⟨fun h => ?_, fun h => ?_, ?_, rfl⟩
  · unfold derive_ext
    rw [if_neg (by omega)]
  · unfold derive_ext
    rw [if_pos (by omega)]
  · unfold derive_ext
    split
    · decide
    · omega

/-- C10 witness: a short extension survives a query string, a long one
falls back to "mp3", and the filename is title plus extension. -/
theorem c10_extension_fallback_w :
    derive_ext "https://x.in/a.mp3?t=1" = raw_ext "https://x.in/a.mp3?t=1" ∧
    derive_ext "https://x.in/a.verylong" = "mp3" ∧
    (derive_ext "https://x.in/a.verylong").length ≤ 5 ∧
    make_filename "Sun" "https://x.in/a.verylong"
      = sanitize_filename "Sun" ++ "." ++ derive_ext "https://x.in/a.verylong" :=
  ⟨(c10_extension_fallback "Sun" "https://x.in/a.mp3?t=1").1 (by decide),
   (c10_extension_fallback "Sun" "https://x.in/a.verylong").2.1 (by decide),
   (c10_extension_fallback "Sun" "https://x.in/a.verylong").2.2.1,
   (c10_extension_fallback "Sun" "https://x.in/a.verylong").2.2.2⟩

/-- C3 counterexample: an interrupted stream leaves its partial prefix
at the final cache path while the download fails, and a later call
treats that half-written file as a valid cache hit. -/
theorem c3_cex_partial_file_remains :
    download_audio envInt [] "u" "f.mp3"
      = ([("f.mp3", [7])], [Ev.netGet "u"], Except.error ()) ∧
    download_audio envInt [("f.mp3", [7])] "u2" "f.mp3"
      = ([("f.mp3", [7])], [], Except.ok "f.mp3") :=
  ⟨rfl, rfl⟩

/-- C3 amended: a non-success HTTP status leaves no file at the final
path because the status check precedes opening the file, but a stream
interruption writes the partial prefix directly to the final path and
leaves it there; only a complete stream stores the full content. -/
theorem c3_amended_no_atomic_write (env : Env)
    (files : List (String × List Nat)) (url fn : String)
    (h : files.lookup fn = Option.none) :
    (env.net url = DlOutcome.httpErr →
      download_audio env files url fn
        = (files, [Ev.netGet url], Except.error ())) ∧
    (∀ sent, env.net url = DlOutcome.interrupted sent →
      download_audio env files url fn
        = ((fn, sent) :: files, [Ev.netGet url], Except.error ())) ∧
    (∀ c, env.net url = DlOutcome.success c →
      download_audio env files url fn
        = ((fn, c) :: files, [Ev.netGet url], Except.ok fn)) := by
  refine ⟨fun hn => ?_, fun sent hn => ?_, fun c hn => ?_⟩ <;>
    simp [download_audio, h, hn]

/-- C3 amended witness: the three download outcomes at concrete inputs. -/
theorem c3_amended_no_atomic_write_w :
    download_audio envErr [] "u" "f.mp3" = ([], [Ev.netGet "u"], Except.error ()) ∧
    download_audio envInt [] "u" "f.mp3"
      = ([("f.mp3", [7])], [Ev.netGet "u"], Except.error ()) ∧
    download_audio env0 [] "u" "f.mp3"
      = ([("f.mp3", [1, 2])], [Ev.netGet "u"], Except.ok "f.mp3") :=
  ⟨(c3_amended_no_atomic_write envErr [] "u" "f.mp3" rfl).1 rfl,
   (c3_amended_no_atomic_write envInt [] "u" "f.mp3" rfl).2.1 [7] rfl,
   (c3_amended_no_atomic_write env0 [] "u" "f.mp3" rfl).2.2 [1, 2] rfl⟩

/-- Helper: every process_story call ends its log with either the
missing-audio warning, the caught-failure line, or the success line,
always carrying the story's identity. -/
theorem process_story_last (env : Env) (fs : FS) (st : Story) :
    (process_story env fs st).2.getLast? = some (Ev.warnNoAudio (pyStr st.nid)) ∨
    (process_story env fs st).2.getLast? = some (Ev.failStory (pyStr st.nid)) ∨
    (process_story env fs st).2.getLast? = some (Ev.processedOk (storyTitle st)) := by
  unfold process_story
  dsimp only
  split
  · simp
  · simp
  · simp
  · split
    · simp [List.getLast?_concat]
    · split
      · simp [List.getLast?_concat]
      · split
        · simp [List.getLast?_concat]
        · split
          · simp [List.getLast?_concat]
          · split
            · simp [List.getLast?_concat]
            · simp [List.getLast?_concat]

/-- C4: per-item failure isolation.  Every item's log ends with a
warning, a caught-failure line naming the item, or a success line; the
loop always continues with the rest of the list from the item's
post-state; and the whole run aborts exactly when the catalog cache is
absent and the catalog GET fails. -/
theorem c4_failure_isolation (env : Env) (fs : FS) (st : Story)
    (rest : List Story) :
    ((process_story env fs st).2.getLast? = some (Ev.warnNoAudio (pyStr st.nid)) ∨
     (process_story env fs st).2.getLast? = some (Ev.failStory (pyStr st.nid)) ∨
     (process_story env fs st).2.getLast? = some (Ev.processedOk (storyTitle st))) ∧
    (runStories env fs (st :: rest)).1 =
      (runStories env
        (if is_community st.field_is_it_by_community then fs
         else (process_story env fs st).1) rest).1 ∧
    ((run env fs).2.2 = Except.error () ↔
      (fs.cacheFile = Option.none ∧ env.catalog = Except.error ())) := by
  refine ⟨process_story_last env fs st, ?_, ?_⟩
  · cases hcom : is_community st.field_is_it_by_community <;>
      simp [runStories, hcom]
  · cases hc : fs.cacheFile with
    | some d => simp [run, fetch_stories, hc]
    | none =>
      cases hcat : env.catalog with
      | error e => cases e; simp [run, fetch_stories, hc, hcat]
      | ok d => simp [run, fetch_stories, hc, hcat]

/-- C4 witness: the three conjuncts at a concrete successful story. -/
theorem c4_failure_isolation_w :
    ((process_story env0 fs0 story0).2.getLast?
        = some (Ev.warnNoAudio (pyStr story0.nid)) ∨
     (process_story env0 fs0 story0).2.getLast?
        = some (Ev.failStory (pyStr story0.nid)) ∨
     (process_story env0 fs0 story0).2.getLast?
        = some (Ev.processedOk (storyTitle story0))) ∧
    (runStories env0 fs0 [story0]).1 =
      (runStories env0
        (if is_community story0.field_is_it_by_community then fs0
         else (process_story env0 fs0 story0).1) []).1 ∧
    ((run env0 fs0).2.2 = Except.error () ↔
      (fs0.cacheFile = Option.none ∧ env0.catalog = Except.error ())) :=
  c4_failure_isolation env0 fs0 story0 []

/-- C9: a story none of whose audio fields holds a truthy value only
logs a warning carrying its nid and returns: no state change, no
download, no transcription, no append, no failure line; the loop then
simply continues with the remaining stories. -/
theorem c9_missing_audio_skip (env : Env) (fs : FS) (st : Story)
    (h1 : truthyStr st.audio_story_url = false)
    (h2 : truthyStr st.audio = false)
    (h3 : truthyStr st.audio_url = false) :
    process_story env fs st = (fs, [Ev.warnNoAudio (pyStr st.nid)]) ∧
    (∀ rest, is_community st.field_is_it_by_community = false →
      runStories env fs (st :: rest)
        = ((runStories env fs rest).1,
           Ev.warnNoAudio (pyStr st.nid) :: (runStories env fs rest).2)) := by
  have hrel : relativeAudio st = Option.none := by
    simp [relativeAudio, firstTruthy, h1, h2, h3]
  have hps : process_story env fs st = (fs, [Ev.warnNoAudio (pyStr st.nid)]) := by
    simp [process_story, hrel]
  refine ⟨hps, fun rest hcom => ?_⟩
  simp [runStories, hcom, hps]

/-- C9 witness: the concrete audio-less story is skipped with one
warning and the batch state is untouched. -/
theorem c9_missing_audio_skip_w :
    process_story env0 fs0 storyNoAudio = (fs0, [Ev.warnNoAudio "2"]) ∧
    runStories env0 fs0 [storyNoAudio] = (fs0, [Ev.warnNoAudio "2"]) :=
  ⟨(c9_missing_audio_skip env0 fs0 storyNoAudio rfl rfl rfl).1,
   (c9_missing_audio_skip env0 fs0 storyNoAudio rfl rfl rfl).2 [] rfl⟩

/-- Helper: process_story never reads the transcript store or the
output rows.  Replacing both leaves the event trace and the audio-cache
effect unchanged; the transcript store is either untouched or gets the
freshly transcribed text prepended under the story's key (an overwrite,
since lookup takes the first binding); the output is either untouched
or gets exactly one row appended. -/
theorem process_story_frame (env : Env) (fs : FS) (st : Story)
    (ts : List (String × String)) (rows : List Row) :
    (process_story env { fs with transcripts := ts, outputRows := rows } st).2
      = (process_story env fs st).2 ∧
    (process_story env { fs with transcripts := ts, outputRows := rows } st).1.audioFiles
      = (process_story env fs st).1.audioFiles ∧
    ((process_story env { fs with transcripts := ts, outputRows := rows } st).1.transcripts
        = ts ∨
     ∃ text,
       (process_story env { fs with transcripts := ts, outputRows := rows } st).1.transcripts
        = (pyStr st.nid ++ ".txt", text) :: ts) ∧
    ((process_story env { fs with transcripts := ts, outputRows := rows } st).1.outputRows
        = rows ∨
     ∃ r,
       (process_story env { fs with transcripts := ts, outputRows := rows } st).1.outputRows
        = rows ++ [r]) := by
  unfold process_story
  dsimp only
  split
  · exact ⟨rfl, rfl, Or.inl rfl, Or.inl rfl⟩
  · exact ⟨rfl, rfl, Or.inl rfl, Or.inl rfl⟩
  · exact ⟨rfl, rfl, Or.inl rfl, Or.inl rfl⟩
  · split
    · exact ⟨rfl, rfl, Or.inl rfl, Or.inl rfl⟩
    · split
      · exact ⟨rfl, rfl, Or.inl rfl, Or.inl rfl⟩
      · split
        · exact ⟨rfl, rfl, Or.inl rfl, Or.inl rfl⟩
        · split
          · exact ⟨rfl, rfl, Or.inr ⟨_, rfl⟩, Or.inl rfl⟩
          · split
            · exact ⟨rfl, rfl, Or.inr ⟨_, rfl⟩, Or.inr ⟨_, rfl⟩⟩
            · exact ⟨rfl, rfl, Or.inr ⟨_, rfl⟩, Or.inl rfl⟩

/-- Helper: the only effect a single story can have on the output rows
is appending exactly one row, built by mkRow from that story and its
analysis result. -/
theorem process_story_rows (env : Env) (fs : FS) (st : Story) :
    (process_story env fs st).1.outputRows = fs.outputRows ∨
    ∃ a, (process_story env fs st).1.outputRows
        = fs.outputRows ++ [mkRow st (storyTitle st) a] := by
  unfold process_story
  dsimp only
  split
  · exact Or.inl rfl
  · exact Or.inl rfl
  · exact Or.inl rfl
  · split
    · exact Or.inl rfl
    · split
      · exact Or.inl rfl
      · split
        · exact Or.inl rfl
        · split
          · exact Or.inl rfl
          · split
            · exact Or.inr ⟨_, rfl⟩
            · exact Or.inl rfl

/-- C1 counterexample: with the output table already containing story0's
row, a second run on the unchanged catalog re-invokes transcription and
appends the same row again, so the second run performs one new append,
not zero. -/
theorem c1_cex_second_run_appends :
    (run env0 fs0).1.outputRows = [row0] ∧
    (run env0 fs1).1.outputRows = [row0, row0] ∧
    Ev.transcribeCall "Sun_trimmed.mp3" ∈ (run env0 fs1).2.1 ∧
    Ev.append row0 ∈ (run env0 fs1).2.1 :=
  ⟨by decide, by decide, by decide, by decide⟩

/-- C1 amended: there is no completion ledger.  The prior content of the
output table is never read, so it never suppresses any stage; on a
second run over the unchanged catalog the existence caches do skip the
download and the trim (no network event), but transcription, analysis
and the append re-execute, adding one duplicate row per successful
item whatever rows the table already holds. -/
theorem c1_amended_no_ledger :
    (∀ (env : Env) (fs : FS) (st : Story) (rows : List Row),
      (process_story env { fs with outputRows := rows } st).2
        = (process_story env fs st).2) ∧
    ∀ rows : List Row,
      (run env0 { fs1 with outputRows := rows }).1.outputRows = rows ++ [row0] ∧
      (run env0 { fs1 with outputRows := rows }).2.1
        = [Ev.transcribeCall "Sun_trimmed.mp3", Ev.analyzeCall "hello world",
           Ev.append row0, Ev.processedOk "Sun"] := by
  constructor
  · intro env fs st rows
    exact (process_story_frame env fs st fs.transcripts rows).1
  · intro rows
    exact ⟨rfl, rfl⟩

/-- C2 counterexample: a transcript record for story0 already exists on
persistent storage, yet process_story still invokes the external
transcription engine and overwrites the stored text with the fresh
result. -/
theorem c2_cex_transcribe_always_runs :
    fsT.transcripts.lookup "1.txt" = some "OLD" ∧
    Ev.transcribeCall "Sun_trimmed.mp3" ∈ (process_story env0 fsT story0).2 ∧
    (process_story env0 fsT story0).1.transcripts.lookup "1.txt"
      = some "hello world" :=
  ⟨rfl, by decide, by decide⟩

/-- C2 amended: the transcription call is unconditional.  The transcript
store is never read (replacing its entire content changes no event, so
an existing record never prevents the transcribe call), and the store is
only ever written: either untouched, or the fresh text is stored under
the story's key, shadowing any previous record. -/
theorem c2_amended_unconditional_transcribe (env : Env) (fs : FS) (st : Story)
    (ts : List (String × String)) :
    (process_story env { fs with transcripts := ts } st).2
      = (process_story env fs st).2 ∧
    ((process_story env { fs with transcripts := ts } st).1.transcripts = ts ∨
     ∃ text, (process_story env { fs with transcripts := ts } st).1.transcripts
        = (pyStr st.nid ++ ".txt", text) :: ts) :=
  ⟨(process_story_frame env fs st ts fs.outputRows).1,
   (process_story_frame env fs st ts fs.outputRows).2.2.1⟩

/-- C5 counterexample: a story whose community flag is the string
" 1 " does not string-equal "1", so the claim says it proceeds and
appears in the output table; the code strips whitespace first and
excludes it, producing no row at all, while the identical story with
flag "0" does produce a row. -/
theorem c5_cex_whitespace_flag :
    pyStr storyWs.field_is_it_by_community ≠ "1" ∧
    is_community storyWs.field_is_it_by_community = true ∧
    (run envWs fs0).1.outputRows = [] ∧
    (run envWs fs0).2.1 = [Ev.netGet api_url, Ev.skipCommunity "1"] ∧
    (run env0 fs0).1.outputRows.length = 1 :=
  ⟨by decide, rfl, by decide, by decide, by decide⟩

/-- C5 amended: the exclusion predicate is str(flag).strip() == "1",
whitespace stripped; every row the loop ever adds to the output comes
from a story whose stripped flag string is not "1", so excluded items
never appear. -/
theorem c5_amended_strip_filter (env : Env) (fs : FS) (stories : List Story)
    (r : Row) (h : r ∈ (runStories env fs stories).1.outputRows) :
    r ∈ fs.outputRows ∨
    ∃ st a, st ∈ stories ∧ is_community st.field_is_it_by_community = false ∧
      r = mkRow st (storyTitle st) a := by
  induction stories generalizing fs with
  | nil => exact Or.inl (by simpa [runStories] using h)
  | cons st rest ih =>
    cases hcom : is_community st.field_is_it_by_community with
    | true =>
      have h' : r ∈ (runStories env fs rest).1.outputRows := by
        simpa [runStories, hcom] using h
      rcases ih fs h' with hl | ⟨st', a, hmem, hc, hr⟩
      · exact Or.inl hl
      · exact Or.inr ⟨st', a, List.mem_cons_of_mem _ hmem, hc, hr⟩
    | false =>
      have h' : r ∈ (runStories env (process_story env fs st).1 rest).1.outputRows := by
        simpa [runStories, hcom] using h
      rcases ih (process_story env fs st).1 h' with hl | ⟨st', a, hmem, hc, hr⟩
      · rcases process_story_rows env fs st with he | ⟨a, hrow⟩
        · rw [he] at hl
          exact Or.inl hl
        · rw [hrow] at hl
          rcases List.mem_append.mp hl with h1 | h2
          · exact Or.inl h1
          · exact Or.inr ⟨st, a, List.mem_cons_self st rest, hcom,
              by simpa using h2⟩
      · exact Or.inr ⟨st', a, List.mem_cons_of_mem _ hmem, hc, hr⟩

/-- C5 amended witness: the one row produced by the concrete run comes
from the non-community story0. -/
theorem c5_amended_strip_filter_w :
    row0 ∈ fs0.outputRows ∨
    ∃ st a, st ∈ [story0] ∧ is_community st.field_is_it_by_community = false ∧
      row0 = mkRow st (storyTitle st) a :=
  c5_amended_strip_filter env0 fs0 [story0] row0 (by decide)

